import Mathlib

/-!
# Verification of `create_scenarios.py`

A shallow embedding of the scenario-generator script `create_scenarios.py`
(PB-FHR power-ramp scenario matrix) together with proofs of the spec's
claims about it.

Modelling conventions:
* Python floats are modelled as rationals (`ℚ`).  Every numeric value this
  program manipulates (tenths for power fractions, hundredths for the
  273.15 °C→K offset, integral second counts and pcm rates) is exact in
  binary-free rational arithmetic, and the corresponding double-precision
  computations in the script are exact as well, so the two agree at every
  value the claims mention.
* Python's `int()` truncation toward zero is `pyInt`.
* `string.Template.substitute` is modelled by a tokenizer (`scan`) for the
  `$name` / `${name}` / `$$` placeholder syntax with Python's default ASCII
  identifier pattern, plus a renderer (`renderToks`) that substitutes
  left-to-right and fails on the first placeholder missing from the
  mapping, mirroring the `KeyError` raised by `substitute`.  `KeyError` on
  a placeholder is `RenderError.missingParameter`; the `ValueError` for a
  stray `$` is `RenderError.invalidPlaceholder`.
* Fallible operations return `Except RenderError`.
-/

namespace CreateScenarios

/-- `OUTPUT_ROOT = "pbfhr_runs"` from the script header. -/
def OUTPUT_ROOT : String := "pbfhr_runs"

/-- Mk1 PB-FHR rated thermal power in watts (`P_NOM_TH = 236e6`). -/
def P_NOM_TH : ℚ := 236000000

/-- `POWER_LEVELS = [0.2, 0.3, 0.5, 0.7, 0.8]`. -/
def POWER_LEVELS : List ℚ := [0.2, 0.3, 0.5, 0.7, 0.8]

/-- `TEMP_BUCKETS = ["low", "nominal", "high"]`. -/
def TEMP_BUCKETS : List String := ["low", "nominal", "high"]

/-- Seconds of steady state before the ramp (`PRE_RAMP_S = 2.0`). -/
def PRE_RAMP_S : ℚ := 2

/-- Duration of the reactivity ramp (`RAMP_TIME_S = 300.0`). -/
def RAMP_TIME_S : ℚ := 300

/-- Seconds after the ramp with constant reactivity (`POST_RAMP_S = 5.0`). -/
def POST_RAMP_S : ℚ := 5

/-- Reactivity ramp rate in pcm per minute (`RHO_RATE_PCM_PER_MIN = 240.0`). -/
def RHO_RATE_PCM_PER_MIN : ℚ := 240

/-- Python's `int()` conversion on a float: truncation toward zero. -/
def pyInt (x : ℚ) : ℤ := if 0 ≤ x then ⌊x⌋ else ⌈x⌉

/-- The `Scenario` dataclass of the script. -/
structure Scenario where
  p0 : ℚ
  direction : String
  bucket : String
  t_ramp_s : ℚ
  run_name : String
deriving DecidableEq

/-- `generate_scenarios`: for each bucket (outer loop, table order) and each
initial power level (inner loop, ladder order), append one "up" scenario and
then one "down" scenario, both with ramp duration `RAMP_TIME_S`, named by the
f-strings `f"init{int(p0*100)}-{bucket}-up"` / `..."-down"`. -/
def generate_scenarios : List Scenario :=
  TEMP_BUCKETS.flatMap (fun bucket =>
    POWER_LEVELS.flatMap (fun p0 =>
      [{ p0 := p0, direction := "up", bucket := bucket, t_ramp_s := RAMP_TIME_S,
         run_name := "init" ++ toString (pyInt (p0 * 100)) ++ "-" ++ bucket ++ "-up" },
       { p0 := p0, direction := "down", bucket := bucket, t_ramp_s := RAMP_TIME_S,
         run_name := "init" ++ toString (pyInt (p0 * 100)) ++ "-" ++ bucket ++ "-down" }]))

/-- `initial_temps_kelvin`: select the four °C presets for the bucket
(`"low"` / `"high"` tested explicitly, anything else taking the `else`
branch commented `# "nominal"`), then return
`(t_fuel_C + K, t_mod_C + K, t_shell_C + K, t_cool_C + K)` with `K = 273.15`.
The °C presets are listed in the source's assignment order
`(t_cool_C, t_fuel_C, t_mod_C, t_shell_C)`. -/
def initial_temps_kelvin (bucket : String) : ℚ × ℚ × ℚ × ℚ :=
  let p : ℚ × ℚ × ℚ × ℚ :=
    if bucket = "low" then (620, 750, 740, 730)
    else if bucket = "high" then (680, 850, 840, 820)
    else (650, 800, 800, 770)
  let K : ℚ := 273.15
  (p.2.1 + K, p.2.2.1 + K, p.2.2.2 + K, p.1 + K)

/-- Left-pad a digit string with zeros to width `n` (helper for the numeric
format models below). -/
def padZeros (n : Nat) (s : String) : String :=
  String.mk (List.replicate (n - s.length) '0') ++ s

/-- Model of Python's fixed-point format `f"{x:.6f}"`.  Python rounds the
double to six decimals; every value this script formats is exact at six
decimals, where the two definitions agree. -/
def formatFixed6 (q : ℚ) : String :=
  (if q < 0 then "-" else "")
    ++ toString (round (|q| * 1000000) / 1000000)
    ++ "."
    ++ padZeros 6 (toString (round (|q| * 1000000) % 1000000))

/-- Model of Python's scientific format `f"{x:.6e}"` for a nonzero value:
a seven-digit mantissa `d.dddddd` and a signed two-digit-minimum exponent.
Every value this script formats this way (`p0 * P_NOM_TH`) is exact at six
mantissa decimals, where the two definitions agree. -/
def formatSci6 (q : ℚ) : String :=
  if q = 0 then "0.000000e+00"
  else
    (if q < 0 then "-" else "")
      ++ (let e : ℤ := Int.log 10 |q|
          let m : ℤ := round (|q| * (10 : ℚ) ^ (6 - e))
          let me : ℤ × ℤ := if m ≥ 10000000 then (1000000, e + 1) else (m, e)
          (toString me.1).take 1 ++ "." ++ (toString me.1).drop 1
            ++ "e" ++ (if me.2 < 0 then "-" else "+") ++ padZeros 2 (toString me.2.natAbs))

/-- Total simulated time, `tf = PRE_RAMP_S + scen.t_ramp_s + POST_RAMP_S`
in `build_input_from_template`. -/
def tf_of (scen : Scenario) : ℚ := PRE_RAMP_S + scen.t_ramp_s + POST_RAMP_S

/-- Ramp start time, `t_ramp_start = PRE_RAMP_S` in `build_input_from_template`. -/
def t_ramp_start : ℚ := PRE_RAMP_S

/-- Ramp end time, `t_ramp_end = PRE_RAMP_S + scen.t_ramp_s` in
`build_input_from_template`. -/
def t_ramp_end_of (scen : Scenario) : ℚ := PRE_RAMP_S + scen.t_ramp_s

/-- The Rate Model's reactivity-delta contract (spec §4.1), of which the
script's computation is the instance at rate `RHO_RATE_PCM_PER_MIN`:
`rate_pcm_per_minute * (t_ramp_s / 60)`, negated when `direction == "down"`. -/
def delta_rho_of (rate t_ramp_s : ℚ) (direction : String) : ℚ :=
  if direction = "down" then -(rate * (t_ramp_s / 60)) else rate * (t_ramp_s / 60)

/-- The script's reactivity delta for a scenario:
`delta_rho_pcm = RHO_RATE_PCM_PER_MIN * (scen.t_ramp_s / 60.0)`, then
`if scen.direction == "down": delta_rho_pcm = -delta_rho_pcm`. -/
def delta_rho_pcm (scen : Scenario) : ℚ :=
  delta_rho_of RHO_RATE_PCM_PER_MIN scen.t_ramp_s scen.direction

/-- Scaled thermal power, `power_tot = scen.p0 * P_NOM_TH`. -/
def power_tot_of (scen : Scenario) : ℚ := scen.p0 * P_NOM_TH

/-- Failure modes of template rendering: `missingParameter` models the
`KeyError` raised by `Template.substitute` for a placeholder absent from
the mapping, `invalidPlaceholder` the `ValueError` for a stray `$`. -/
inductive RenderError where
  | missingParameter (name : String)
  | invalidPlaceholder
deriving DecidableEq

/-- First-match lookup of a placeholder name in the keyword mapping
(Python keyword arguments have distinct keys, so first-match agrees with
dict lookup). -/
def lookupName (m : List (String × String)) (k : String) : Option String :=
  match m with
  | [] => none
  | (a, v) :: rest => if a = k then some v else lookupName rest k

/-- One lexical piece of a template: a literal character (including an
escaped `$$`, which contributes the literal `$`) or a placeholder. -/
inductive Tok where
  | lit (c : Char)
  | ph (name : String)
deriving DecidableEq

/-- Start of an identifier under Python `string.Template`'s default ASCII
pattern `[_a-zA-Z]`. -/
def isIdentStart (c : Char) : Bool := c.isAlpha || c = '_'

/-- Continuation of an identifier, `[_a-zA-Z0-9]`. -/
def isIdentChar (c : Char) : Bool := c.isAlphanum || c = '_'

/-- Tokenizer state: `normal` outside any placeholder, `dollar` right after
a `$`, `named acc` inside a bare `$name`, `bracedStart` right after `${`,
`braced acc` inside `${name`. -/
inductive ScanMode where
  | normal
  | dollar
  | named (acc : List Char)
  | bracedStart
  | braced (acc : List Char)

/-- Tokenizer for `string.Template`'s pattern with the default delimiter
`$` and ASCII identifier rule: `$$` escapes, `$name` and `${name}` are
placeholders (maximal-munch names), and any other use of `$` — including a
trailing `$`, `$` before a non-identifier character, `${}`, or an
unterminated or malformed `${…` — is invalid (`none`), matching the
`invalid` branch of the stdlib regex. -/
def scan (mode : ScanMode) (l : List Char) : Option (List Tok) :=
  match mode, l with
  | .normal, [] => some []
  | .normal, c :: rest =>
    if c = '$' then scan .dollar rest
    else (Tok.lit c :: ·) <$> scan .normal rest
  | .dollar, [] => none
  | .dollar, c :: rest =>
    if c = '$' then (Tok.lit '$' :: ·) <$> scan .normal rest
    else if c = '{' then scan .bracedStart rest
    else if isIdentStart c then scan (.named [c]) rest
    else none
  | .named acc, [] => some [Tok.ph (String.mk acc)]
  | .named acc, c :: rest =>
    if isIdentChar c then scan (.named (acc ++ [c])) rest
    else if c = '$' then (Tok.ph (String.mk acc) :: ·) <$> scan .dollar rest
    else (fun ts => Tok.ph (String.mk acc) :: Tok.lit c :: ts) <$> scan .normal rest
  | .bracedStart, [] => none
  | .bracedStart, c :: rest =>
    if isIdentStart c then scan (.braced [c]) rest else none
  | .braced _, [] => none
  | .braced acc, c :: rest =>
    if isIdentChar c then scan (.braced (acc ++ [c])) rest
    else if c = '}' then (Tok.ph (String.mk acc) :: ·) <$> scan .normal rest
    else none

/-- Tokenize a whole template. -/
def tokenize (l : List Char) : Option (List Tok) := scan .normal l

/-- The `Tok.ph` payload, if any. -/
def tokName : Tok → Option String
  | .ph n => some n
  | .lit _ => none

/-- The placeholder names of a token list, in occurrence order. -/
def placeholdersOfToks (ts : List Tok) : List String := ts.filterMap tokName

/-- The placeholder names a template references, or `none` if the template
misuses `$`. -/
def placeholdersOf (tmpl : String) : Option (List String) :=
  (tokenize tmpl.data).map placeholdersOfToks

/-- Render a token list against a mapping, left to right, failing on the
first placeholder whose name is missing from the mapping — the behavior of
the `convert` callback inside `Template.substitute`. -/
def renderToks (m : List (String × String)) : List Tok → Except RenderError (List Char)
  | [] => .ok []
  | .lit c :: ts =>
    match renderToks m ts with
    | .ok cs => .ok (c :: cs)
    | .error e => .error e
  | .ph n :: ts =>
    match lookupName m n with
    | none => .error (.missingParameter n)
    | some v =>
      match renderToks m ts with
      | .ok cs => .ok (v.data ++ cs)
      | .error e => .error e

/-- `Template(template_text).substitute(mapping)`. -/
def substitute (tmpl : String) (m : List (String × String)) : Except RenderError String :=
  match tokenize tmpl.data with
  | none => .error .invalidPlaceholder
  | some ts =>
    match renderToks m ts with
    | .ok cs => .ok (String.mk cs)
    | .error e => .error e

/-- The keyword mapping passed to `tmpl.substitute(...)` inside
`build_input_from_template`, in the source's keyword order, with each
value formatted exactly as in the source (`:.6f` for linear quantities
with a `" * units.kelvin"` suffix on the four temperatures, `:.6e` for the
thermal power). -/
def substMap (scen : Scenario) : List (String × String) :=
  [("TF", formatFixed6 (tf_of scen)),
   ("T_RAMP_START", formatFixed6 t_ramp_start),
   ("T_RAMP_END", formatFixed6 (t_ramp_end_of scen)),
   ("DELTA_RHO", formatFixed6 (delta_rho_pcm scen)),
   ("POWER_TOT", formatSci6 (power_tot_of scen)),
   ("T_FUEL0", formatFixed6 (initial_temps_kelvin scen.bucket).1 ++ " * units.kelvin"),
   ("T_MOD0", formatFixed6 (initial_temps_kelvin scen.bucket).2.1 ++ " * units.kelvin"),
   ("T_SHELL0", formatFixed6 (initial_temps_kelvin scen.bucket).2.2.1 ++ " * units.kelvin"),
   ("T_COOL0", formatFixed6 (initial_temps_kelvin scen.bucket).2.2.2 ++ " * units.kelvin")]

/-- `build_input_from_template(template_text, scen)`: substitute the
scenario's synthesized values into the template. -/
def build_input_from_template (template_text : String) (scen : Scenario) :
    Except RenderError String :=
  substitute template_text (substMap scen)

/-- The placeholder names supplied by `build_input_from_template` (the
bias-less `DELTA_RHO` template variant). -/
def NO_BIAS_KEYS : List String :=
  ["TF", "T_RAMP_START", "T_RAMP_END", "DELTA_RHO", "POWER_TOT",
   "T_FUEL0", "T_MOD0", "T_SHELL0", "T_COOL0"]

/-- Modelled from the spec: the generator variant that fills the
`DELTA_RHO_PCM`/`RHO_BIAS_PCM` template (spec §4.4, §6) is not among the
repository's source files — only a deck it generated,
`pbfhr_runs/50-60-high-up/input.py`, is present.  Per the spec it supplies
the same common placeholders plus `DELTA_RHO_PCM` paired with
`RHO_BIAS_PCM`, the bias being a fixed constant (200 pcm) for "up"
scenarios and zero for "down" scenarios. -/
def substMapBias (scen : Scenario) : List (String × String) :=
  [("TF", formatFixed6 (tf_of scen)),
   ("T_RAMP_START", formatFixed6 t_ramp_start),
   ("T_RAMP_END", formatFixed6 (t_ramp_end_of scen)),
   ("DELTA_RHO_PCM", formatFixed6 (delta_rho_pcm scen)),
   ("RHO_BIAS_PCM", formatFixed6 (if scen.direction = "down" then 0 else 200)),
   ("POWER_TOT", formatSci6 (power_tot_of scen)),
   ("T_FUEL0", formatFixed6 (initial_temps_kelvin scen.bucket).1 ++ " * units.kelvin"),
   ("T_MOD0", formatFixed6 (initial_temps_kelvin scen.bucket).2.1 ++ " * units.kelvin"),
   ("T_SHELL0", formatFixed6 (initial_temps_kelvin scen.bucket).2.2.1 ++ " * units.kelvin"),
   ("T_COOL0", formatFixed6 (initial_temps_kelvin scen.bucket).2.2.2 ++ " * units.kelvin")]

/-- The placeholder names supplied by the bias variant. -/
def BIAS_KEYS : List String :=
  ["TF", "T_RAMP_START", "T_RAMP_END", "DELTA_RHO_PCM", "RHO_BIAS_PCM", "POWER_TOT",
   "T_FUEL0", "T_MOD0", "T_SHELL0", "T_COOL0"]

/-- The manifest entries accumulated by `main`: `str(output_root / scen.run_name)`
for each generated scenario, in generation order. -/
def manifestLines : List String :=
  generate_scenarios.map (fun s => OUTPUT_ROOT ++ "/" ++ s.run_name)

/-- The manifest file contents written by `main`:
`"\n".join(manifest_lines) + "\n"`. -/
def manifestText : String :=
  String.intercalate "\n" manifestLines ++ "\n"

/-! ## Helper lemmas -/

theorem pyInt_mul_100_02 : pyInt ((0.2 : ℚ) * 100) = 20 := by norm_num [pyInt]

theorem pyInt_mul_100_03 : pyInt ((0.3 : ℚ) * 100) = 30 := by norm_num [pyInt]

theorem pyInt_mul_100_05 : pyInt ((0.5 : ℚ) * 100) = 50 := by norm_num [pyInt]

theorem pyInt_mul_100_07 : pyInt ((0.7 : ℚ) * 100) = 70 := by norm_num [pyInt]

theorem pyInt_mul_100_08 : pyInt ((0.8 : ℚ) * 100) = 80 := by norm_num [pyInt]

/-- The generated scenario list, fully evaluated. -/
theorem generate_scenarios_eval :
    generate_scenarios =
      [⟨0.2, "up", "low", 300, "init20-low-up"⟩,
       ⟨0.2, "down", "low", 300, "init20-low-down"⟩,
       ⟨0.3, "up", "low", 300, "init30-low-up"⟩,
       ⟨0.3, "down", "low", 300, "init30-low-down"⟩,
       ⟨0.5, "up", "low", 300, "init50-low-up"⟩,
       ⟨0.5, "down", "low", 300, "init50-low-down"⟩,
       ⟨0.7, "up", "low", 300, "init70-low-up"⟩,
       ⟨0.7, "down", "low", 300, "init70-low-down"⟩,
       ⟨0.8, "up", "low", 300, "init80-low-up"⟩,
       ⟨0.8, "down", "low", 300, "init80-low-down"⟩,
       ⟨0.2, "up", "nominal", 300, "init20-nominal-up"⟩,
       ⟨0.2, "down", "nominal", 300, "init20-nominal-down"⟩,
       ⟨0.3, "up", "nominal", 300, "init30-nominal-up"⟩,
       ⟨0.3, "down", "nominal", 300, "init30-nominal-down"⟩,
       ⟨0.5, "up", "nominal", 300, "init50-nominal-up"⟩,
       ⟨0.5, "down", "nominal", 300, "init50-nominal-down"⟩,
       ⟨0.7, "up", "nominal", 300, "init70-nominal-up"⟩,
       ⟨0.7, "down", "nominal", 300, "init70-nominal-down"⟩,
       ⟨0.8, "up", "nominal", 300, "init80-nominal-up"⟩,
       ⟨0.8, "down", "nominal", 300, "init80-nominal-down"⟩,
       ⟨0.2, "up", "high", 300, "init20-high-up"⟩,
       ⟨0.2, "down", "high", 300, "init20-high-down"⟩,
       ⟨0.3, "up", "high", 300, "init30-high-up"⟩,
       ⟨0.3, "down", "high", 300, "init30-high-down"⟩,
       ⟨0.5, "up", "high", 300, "init50-high-up"⟩,
       ⟨0.5, "down", "high", 300, "init50-high-down"⟩,
       ⟨0.7, "up", "high", 300, "init70-high-up"⟩,
       ⟨0.7, "down", "high", 300, "init70-high-down"⟩,
       ⟨0.8, "up", "high", 300, "init80-high-up"⟩,
       ⟨0.8, "down", "high", 300, "init80-high-down"⟩] := by
  simp only [generate_scenarios, POWER_LEVELS, TEMP_BUCKETS, RAMP_TIME_S,
    List.flatMap_cons, List.flatMap_nil, List.append_nil, List.cons_append, List.nil_append,
    pyInt_mul_100_02, pyInt_mul_100_03, pyInt_mul_100_05, pyInt_mul_100_07, pyInt_mul_100_08]
  rfl

/-- Membership in `generate_scenarios`, characterized. -/
theorem mem_generate_scenarios {s : Scenario} (hs : s ∈ generate_scenarios) :
    ∃ b ∈ TEMP_BUCKETS, ∃ p ∈ POWER_LEVELS,
      s = ⟨p, "up", b, RAMP_TIME_S, "init" ++ toString (pyInt (p * 100)) ++ "-" ++ b ++ "-up"⟩ ∨
      s = ⟨p, "down", b, RAMP_TIME_S, "init" ++ toString (pyInt (p * 100)) ++ "-" ++ b ++ "-down"⟩ := by
  unfold generate_scenarios at hs
  rw [List.mem_flatMap] at hs
  obtain ⟨b, hb, hs⟩ := hs
  rw [List.mem_flatMap] at hs
  obtain ⟨p, hp, hs⟩ := hs
  simp only [List.mem_cons, List.not_mem_nil, or_false] at hs
  exact ⟨b, hb, p, hp, hs⟩

@[simp] theorem placeholdersOfToks_nil : placeholdersOfToks [] = [] := rfl

@[simp] theorem placeholdersOfToks_cons_lit (c : Char) (ts : List Tok) :
    placeholdersOfToks (Tok.lit c :: ts) = placeholdersOfToks ts := rfl

@[simp] theorem placeholdersOfToks_cons_ph (n : String) (ts : List Tok) :
    placeholdersOfToks (Tok.ph n :: ts) = n :: placeholdersOfToks ts := rfl

/-- If every placeholder of the token list is present in the mapping,
rendering succeeds. -/
theorem renderToks_ok_of_lookups (m : List (String × String)) (ts : List Tok)
    (h : ∀ p ∈ placeholdersOfToks ts, (lookupName m p).isSome) :
    ∃ cs, renderToks m ts = .ok cs := by
  induction ts with
  | nil => exact ⟨[], rfl⟩
  | cons t ts ih =>
    cases t with
    | lit c =>
      obtain ⟨cs, hcs⟩ := ih (fun p hp => h p (by simpa using hp))
      exact ⟨c :: cs, by simp [renderToks, hcs]⟩
    | ph n =>
      have hn := h n (by simp)
      obtain ⟨v, hv⟩ := Option.isSome_iff_exists.mp hn
      obtain ⟨cs, hcs⟩ := ih (fun p hp => h p (by simp [hp]))
      exact ⟨v.data ++ cs, by simp [renderToks, hv, hcs]⟩

/-- If rendering succeeds, every placeholder of the token list is present
in the mapping. -/
theorem lookups_of_renderToks_ok (m : List (String × String)) (ts : List Tok)
    (cs : List Char) (h : renderToks m ts = .ok cs) :
    ∀ p ∈ placeholdersOfToks ts, (lookupName m p).isSome := by
  induction ts generalizing cs with
  | nil => simp
  | cons t ts ih =>
    cases t with
    | lit c =>
      intro p hp
      rw [placeholdersOfToks_cons_lit] at hp
      cases hcs : renderToks m ts with
      | ok cs' => exact ih cs' hcs p hp
      | error e => simp [renderToks, hcs] at h
    | ph n =>
      intro p hp
      rw [placeholdersOfToks_cons_ph, List.mem_cons] at hp
      cases hl : lookupName m n with
      | none => simp [renderToks, hl] at h
      | some v =>
        rcases hp with rfl | hp
        · simp [hl]
        · cases hcs : renderToks m ts with
          | ok cs' => exact ih cs' hcs p hp
          | error e => simp [renderToks, hl, hcs] at h

/-- Rendering only ever fails with `missingParameter`, for a placeholder
of the template that is absent from the mapping. -/
theorem renderToks_error_missing (m : List (String × String)) (ts : List Tok)
    (e : RenderError) (h : renderToks m ts = .error e) :
    ∃ p, e = .missingParameter p ∧ p ∈ placeholdersOfToks ts ∧ lookupName m p = none := by
  induction ts generalizing e with
  | nil => simp [renderToks] at h
  | cons t ts ih =>
    cases t with
    | lit c =>
      cases hcs : renderToks m ts with
      | ok cs' => simp [renderToks, hcs] at h
      | error e' =>
        simp only [renderToks, hcs] at h
        obtain ⟨p, hp1, hp2, hp3⟩ := ih e' hcs
        exact ⟨p, by simp_all⟩
    | ph n =>
      cases hl : lookupName m n with
      | none =>
        simp only [renderToks, hl] at h
        exact ⟨n, by simp_all⟩
      | some v =>
        cases hcs : renderToks m ts with
        | ok cs' => simp [renderToks, hl, hcs] at h
        | error e' =>
          simp only [renderToks, hl, hcs] at h
          obtain ⟨p, hp1, hp2, hp3⟩ := ih e' hcs
          exact ⟨p, by simp_all⟩

/-- Rendering depends only on the mapping's values at the template's own
placeholders: entries for names the template does not reference are
ignored. -/
theorem renderToks_congr (m₁ m₂ : List (String × String)) (ts : List Tok)
    (h : ∀ p ∈ placeholdersOfToks ts, lookupName m₁ p = lookupName m₂ p) :
    renderToks m₁ ts = renderToks m₂ ts := by
  induction ts with
  | nil => rfl
  | cons t ts ih =>
    cases t with
    | lit c =>
      simp only [renderToks]
      rw [ih (fun p hp => h p (by simpa using hp))]
    | ph n =>
      have hn := h n (by simp)
      simp only [renderToks]
      rw [hn, ih (fun p hp => h p (by simp [hp]))]

/-- A name is found in a mapping exactly when it is among the mapping's
keys. -/
theorem lookupName_isSome_iff (m : List (String × String)) (p : String) :
    (lookupName m p).isSome ↔ p ∈ m.map Prod.fst := by
  induction m with
  | nil => simp [lookupName]
  | cons a rest ih =>
    obtain ⟨k, v⟩ := a
    by_cases hk : k = p
    · subst hk; simp [lookupName]
    · simp only [lookupName, if_neg hk, List.map_cons, List.mem_cons, ih]
      exact ⟨fun h => Or.inr h, fun h => h.resolve_left (fun hpk => hk hpk.symm)⟩

/-- A name is missing from a mapping exactly when it is not among the
mapping's keys. -/
theorem lookupName_eq_none_iff (m : List (String × String)) (p : String) :
    lookupName m p = none ↔ p ∉ m.map Prod.fst := by
  rw [← lookupName_isSome_iff, Option.not_isSome_iff_eq_none]

/-- The mapping built by `build_input_from_template` supplies exactly the
bias-less placeholder set, for every scenario. -/
theorem substMap_keys (scen : Scenario) : (substMap scen).map Prod.fst = NO_BIAS_KEYS := rfl

/-- The spec-modelled bias-variant mapping supplies exactly the
`DELTA_RHO_PCM`/`RHO_BIAS_PCM` placeholder set, for every scenario. -/
theorem substMapBias_keys (scen : Scenario) : (substMapBias scen).map Prod.fst = BIAS_KEYS := rfl

theorem formatFixed6_307 : formatFixed6 (307 : ℚ) = "307.000000" := by
  have h1 : |(307 : ℚ)| = 307 := abs_of_nonneg (by norm_num)
  have h2 : round ((307 : ℚ) * 1000000) = 307000000 := by norm_num [round_eq]
  unfold formatFixed6
  rw [h1, h2, if_neg (by norm_num : ¬(307 : ℚ) < 0)]
  rfl

theorem formatFixed6_1200 : formatFixed6 (1200 : ℚ) = "1200.000000" := by
  have h1 : |(1200 : ℚ)| = 1200 := abs_of_nonneg (by norm_num)
  have h2 : round ((1200 : ℚ) * 1000000) = 1200000000 := by norm_num [round_eq]
  unfold formatFixed6
  rw [h1, h2, if_neg (by norm_num : ¬(1200 : ℚ) < 0)]
  rfl

theorem formatFixed6_neg1200 : formatFixed6 (-1200 : ℚ) = "-1200.000000" := by
  have h1 : |(-1200 : ℚ)| = 1200 := by norm_num
  have h2 : round ((1200 : ℚ) * 1000000) = 1200000000 := by norm_num [round_eq]
  unfold formatFixed6
  rw [h1, h2, if_pos (by norm_num : (-1200 : ℚ) < 0)]
  rfl

/-! ## Claims -/

/-- C1, counterexample: the claim says an unrecognized bucket label fails
with `InvalidBucket` and never silently yields default temperatures, but
`initial_temps_kelvin` is total — its `else` branch catches every label
other than `"low"` and `"high"`, so the unrecognized label `"bogus"`
silently receives the nominal default temperatures. -/
theorem initial_temps_unrecognized_silently_nominal :
    initial_temps_kelvin "bogus" = (1073.15, 1073.15, 1043.15, 923.15) := by
  simp [initial_temps_kelvin, (by decide : ("bogus" : String) ≠ "low"),
    (by decide : ("bogus" : String) ≠ "high")]
  norm_num

/-- C1, amended: every bucket label other than `"low"` and `"high"` —
recognized (`"nominal"`) or not — takes the `else` branch and receives the
nominal temperatures; no error is ever raised. -/
theorem initial_temps_fallthrough (b : String) (h1 : b ≠ "low") (h2 : b ≠ "high") :
    initial_temps_kelvin b = initial_temps_kelvin "nominal" := by
  simp [initial_temps_kelvin, if_neg h1, if_neg h2,
    (by decide : ("nominal" : String) ≠ "low"), (by decide : ("nominal" : String) ≠ "high")]

/-- C1, witness for the amended claim at the unrecognized label `"warm"`. -/
theorem initial_temps_fallthrough_witness :
    initial_temps_kelvin "warm" = initial_temps_kelvin "nominal" :=
  initial_temps_fallthrough "warm" (by decide) (by decide)

/-- C2: the thirty generated `run_name`s are pairwise distinct, and each is
derived deterministically from the scenario's power level as an integer
percentage, its bucket label, and its direction, joined by `"-"` (with the
fixed prefix `"init"` on the percentage). -/
theorem run_names_unique_and_derived :
    (generate_scenarios.map Scenario.run_name).Nodup ∧
    ∀ s ∈ generate_scenarios,
      s.run_name =
        "init" ++ toString (pyInt (s.p0 * 100)) ++ "-" ++ s.bucket ++ "-" ++ s.direction := by
  constructor
  · rw [generate_scenarios_eval]
    decide
  · intro s hs
    obtain ⟨b, hb, p, hp, h | h⟩ := mem_generate_scenarios hs <;>
      (subst h; simp only [String.append_assoc]; rfl)

/-- C2, witness: the first generated scenario's name follows the derivation
rule. -/
theorem run_names_unique_and_derived_witness :
    (⟨0.2, "up", "low", 300, "init20-low-up"⟩ : Scenario).run_name =
      "init" ++ toString (pyInt ((0.2 : ℚ) * 100)) ++ "-" ++ "low" ++ "-" ++ "up" :=
  run_names_unique_and_derived.2 _ (by rw [generate_scenarios_eval]; exact List.mem_cons_self _ _)

/-- C3: the reactivity delta is `rate × duration / 60` pcm for an "up" ramp,
is negated (same magnitude, opposite sign) for a "down" ramp, and its
magnitude is linear in the duration and unaffected by the direction. -/
theorem reactivity_delta_formula (d r : ℚ) :
    delta_rho_of r d "up" = r * d / 60 ∧
    delta_rho_of r d "down" = -(r * d / 60) ∧
    |delta_rho_of r d "down"| = |delta_rho_of r d "up"| ∧
    ∀ c : ℚ, delta_rho_of r (c * d) "up" = c * delta_rho_of r d "up" := by
  have hne : ("up" : String) ≠ "down" := by decide
  refine ⟨?_, ?_, ?_, ?_⟩
  · rw [delta_rho_of, if_neg hne]; ring
  · rw [delta_rho_of, if_pos rfl]; ring_nf
  · rw [delta_rho_of, delta_rho_of, if_pos rfl, if_neg hne, abs_neg]
  · intro c
    rw [delta_rho_of, delta_rho_of, if_neg hne, if_neg hne]; ring

/-- C4: each recognized bucket's four temperatures (fuel, moderator, shell,
coolant) are the configured °C constants plus exactly 273.15; the nominal
bucket yields 1073.15 K / 1073.15 K / 1043.15 K / 923.15 K from
800 / 800 / 770 / 650 °C. -/
theorem initial_temps_bucket_conversion :
    initial_temps_kelvin "low" = (750 + 273.15, 740 + 273.15, 730 + 273.15, 620 + 273.15) ∧
    initial_temps_kelvin "nominal" = (800 + 273.15, 800 + 273.15, 770 + 273.15, 650 + 273.15) ∧
    initial_temps_kelvin "high" = (850 + 273.15, 840 + 273.15, 820 + 273.15, 680 + 273.15) ∧
    initial_temps_kelvin "nominal" = (1073.15, 1073.15, 1043.15, 923.15) := by
  refine ⟨?_, ?_, ?_, ?_⟩ <;>
    simp [initial_temps_kelvin, (by decide : ("nominal" : String) ≠ "low"),
      (by decide : ("nominal" : String) ≠ "high"), (by decide : ("high" : String) ≠ "low")]
  all_goals norm_num

/-- C5: the fixed-magnitude enumeration yields
`2 × len(POWER_LEVELS) × len(TEMP_BUCKETS) = 30` scenarios: for each bucket
and each ladder level, exactly one "up" and one "down" scenario, each with
the single configured ramp duration 300 s, as the explicit projection list
shows. -/
theorem generate_scenarios_counts :
    generate_scenarios.length = 2 * POWER_LEVELS.length * TEMP_BUCKETS.length ∧
    generate_scenarios.length = 30 ∧
    generate_scenarios.map (fun s => (s.p0, s.bucket, s.direction, s.t_ramp_s)) =
      [(0.2, "low", "up", 300), (0.2, "low", "down", 300),
       (0.3, "low", "up", 300), (0.3, "low", "down", 300),
       (0.5, "low", "up", 300), (0.5, "low", "down", 300),
       (0.7, "low", "up", 300), (0.7, "low", "down", 300),
       (0.8, "low", "up", 300), (0.8, "low", "down", 300),
       (0.2, "nominal", "up", 300), (0.2, "nominal", "down", 300),
       (0.3, "nominal", "up", 300), (0.3, "nominal", "down", 300),
       (0.5, "nominal", "up", 300), (0.5, "nominal", "down", 300),
       (0.7, "nominal", "up", 300), (0.7, "nominal", "down", 300),
       (0.8, "nominal", "up", 300), (0.8, "nominal", "down", 300),
       (0.2, "high", "up", 300), (0.2, "high", "down", 300),
       (0.3, "high", "up", 300), (0.3, "high", "down", 300),
       (0.5, "high", "up", 300), (0.5, "high", "down", 300),
       (0.7, "high", "up", 300), (0.7, "high", "down", 300),
       (0.8, "high", "up", 300), (0.8, "high", "down", 300)] := by
  refine ⟨?_, ?_, ?_⟩ <;> (rw [generate_scenarios_eval]; rfl)

/-- C6: the manifest has exactly one entry — the scenario's output
directory path — per generated scenario, in enumeration order (buckets in
table order outermost, power levels in ladder order inside, "up" before
"down"), joined one per line with a trailing newline. -/
theorem manifest_one_entry_per_scenario_in_order :
    manifestLines.length = generate_scenarios.length ∧
    manifestLines =
      ["pbfhr_runs/init20-low-up", "pbfhr_runs/init20-low-down",
       "pbfhr_runs/init30-low-up", "pbfhr_runs/init30-low-down",
       "pbfhr_runs/init50-low-up", "pbfhr_runs/init50-low-down",
       "pbfhr_runs/init70-low-up", "pbfhr_runs/init70-low-down",
       "pbfhr_runs/init80-low-up", "pbfhr_runs/init80-low-down",
       "pbfhr_runs/init20-nominal-up", "pbfhr_runs/init20-nominal-down",
       "pbfhr_runs/init30-nominal-up", "pbfhr_runs/init30-nominal-down",
       "pbfhr_runs/init50-nominal-up", "pbfhr_runs/init50-nominal-down",
       "pbfhr_runs/init70-nominal-up", "pbfhr_runs/init70-nominal-down",
       "pbfhr_runs/init80-nominal-up", "pbfhr_runs/init80-nominal-down",
       "pbfhr_runs/init20-high-up", "pbfhr_runs/init20-high-down",
       "pbfhr_runs/init30-high-up", "pbfhr_runs/init30-high-down",
       "pbfhr_runs/init50-high-up", "pbfhr_runs/init50-high-down",
       "pbfhr_runs/init70-high-up", "pbfhr_runs/init70-high-down",
       "pbfhr_runs/init80-high-up", "pbfhr_runs/init80-high-down"] ∧
    manifestText = String.intercalate "\n" manifestLines ++ "\n" := by
  refine ⟨by simp [manifestLines], ?_, rfl⟩
  unfold manifestLines
  rw [generate_scenarios_eval]
  rfl

/-- C7: the mapping passed to the template carries
`TF = pre + ramp + post`, `T_RAMP_START = pre`,
`T_RAMP_END = start + ramp`, and `POWER_TOT = p0 × rated power`, for every
scenario, and the synthesized quantities satisfy the same identities. -/
theorem synthesized_timing_and_power (scen : Scenario) :
    lookupName (substMap scen) "TF" =
      some (formatFixed6 (PRE_RAMP_S + scen.t_ramp_s + POST_RAMP_S)) ∧
    lookupName (substMap scen) "T_RAMP_START" = some (formatFixed6 PRE_RAMP_S) ∧
    lookupName (substMap scen) "T_RAMP_END" =
      some (formatFixed6 (t_ramp_start + scen.t_ramp_s)) ∧
    lookupName (substMap scen) "POWER_TOT" = some (formatSci6 (scen.p0 * P_NOM_TH)) ∧
    tf_of scen = PRE_RAMP_S + scen.t_ramp_s + POST_RAMP_S ∧
    t_ramp_start = PRE_RAMP_S ∧
    t_ramp_end_of scen = t_ramp_start + scen.t_ramp_s ∧
    power_tot_of scen = scen.p0 * P_NOM_TH :=
  ⟨rfl, rfl, rfl, rfl, rfl, rfl, rfl, rfl⟩

/-- C8: rendering a template against a mapping fails with a
`missingParameter` error naming an unresolved placeholder exactly when some
placeholder of the template has no mapping entry, and the result depends
only on the entries the template references — extra entries are silently
ignored. -/
theorem substitute_missing_and_extra (tmpl : String) (m : List (String × String))
    (ps : List String) (h : placeholdersOf tmpl = some ps) :
    ((∃ out, substitute tmpl m = .ok out) ↔ ∀ p ∈ ps, (lookupName m p).isSome) ∧
    (∀ p, substitute tmpl m = .error (.missingParameter p) → p ∈ ps ∧ lookupName m p = none) ∧
    (∀ m₂, (∀ p ∈ ps, lookupName m p = lookupName m₂ p) →
      substitute tmpl m = substitute tmpl m₂) := by
  obtain ⟨ts, hts, hps⟩ : ∃ ts, tokenize tmpl.data = some ts ∧ ps = placeholdersOfToks ts := by
    unfold placeholdersOf at h
    cases hto : tokenize tmpl.data with
    | none => rw [hto] at h; simp at h
    | some ts =>
      rw [hto] at h
      simp at h
      exact ⟨ts, rfl, h.symm⟩
  subst hps
  simp only [substitute, hts]
  refine ⟨?_, ?_, ?_⟩
  · constructor
    · rintro ⟨out, hout⟩
      cases hr : renderToks m ts with
      | ok cs => exact lookups_of_renderToks_ok m ts cs hr
      | error e => rw [hr] at hout; simp at hout
    · intro hall
      obtain ⟨cs, hcs⟩ := renderToks_ok_of_lookups m ts hall
      exact ⟨String.mk cs, by rw [hcs]⟩
  · intro p hp
    cases hr : renderToks m ts with
    | ok cs => rw [hr] at hp; simp at hp
    | error e =>
      rw [hr] at hp
      simp only [Except.error.injEq] at hp
      obtain ⟨q, hq1, hq2, hq3⟩ := renderToks_error_missing m ts e hr
      rw [hp] at hq1
      simp only [RenderError.missingParameter.injEq] at hq1
      subst hq1
      exact ⟨hq2, hq3⟩
  · intro m₂ hm
    rw [renderToks_congr m m₂ ts hm]

/-- C8, witness: a template referencing `TF` and `DELTA_RHO` renders
identically with and without an extra unreferenced mapping entry. -/
theorem substitute_missing_and_extra_witness :
    substitute "t0 = $TF, rho = ${DELTA_RHO}"
        [("TF", "307.000000"), ("DELTA_RHO", "1200.000000"), ("EXTRA", "1")] =
      substitute "t0 = $TF, rho = ${DELTA_RHO}"
        [("TF", "307.000000"), ("DELTA_RHO", "1200.000000")] :=
  (substitute_missing_and_extra _ _ ["TF", "DELTA_RHO"] (by decide)).2.2 _ (by decide)

/-- C9: for a template whose placeholders all come from the bias-less set
(`DELTA_RHO` variant), rendering with the script's synthesized parameters
succeeds; for one whose placeholders all come from the bias set
(`DELTA_RHO_PCM` paired with `RHO_BIAS_PCM`, spec-modelled variant),
rendering with that variant's parameters succeeds; a template referencing
any placeholder outside the respective supplied set fails with a
`missingParameter` error naming such a placeholder. -/
theorem template_variant_selection (tmpl : String) (ps : List String) (scen : Scenario)
    (h : placeholdersOf tmpl = some ps) :
    ((∀ p ∈ ps, p ∈ NO_BIAS_KEYS) → ∃ out, build_input_from_template tmpl scen = .ok out) ∧
    ((∀ p ∈ ps, p ∈ BIAS_KEYS) → ∃ out, substitute tmpl (substMapBias scen) = .ok out) ∧
    ((∃ p ∈ ps, p ∉ NO_BIAS_KEYS) → ∃ q, q ∈ ps ∧ q ∉ NO_BIAS_KEYS ∧
      build_input_from_template tmpl scen = .error (.missingParameter q)) ∧
    ((∃ p ∈ ps, p ∉ BIAS_KEYS) → ∃ q, q ∈ ps ∧ q ∉ BIAS_KEYS ∧
      substitute tmpl (substMapBias scen) = .error (.missingParameter q)) := by
  obtain ⟨ts, hts, hps⟩ : ∃ ts, tokenize tmpl.data = some ts ∧ ps = placeholdersOfToks ts := by
    unfold placeholdersOf at h
    cases hto : tokenize tmpl.data with
    | none => rw [hto] at h; simp at h
    | some ts =>
      rw [hto] at h
      simp at h
      exact ⟨ts, rfl, h.symm⟩
  subst hps
  simp only [build_input_from_template, substitute, hts]
  refine ⟨?_, ?_, ?_, ?_⟩
  · intro hall
    obtain ⟨cs, hcs⟩ := renderToks_ok_of_lookups (substMap scen) ts (fun p hp => by
      rw [lookupName_isSome_iff, substMap_keys]
      exact hall p hp)
    exact ⟨String.mk cs, by rw [hcs]⟩
  · intro hall
    obtain ⟨cs, hcs⟩ := renderToks_ok_of_lookups (substMapBias scen) ts (fun p hp => by
      rw [lookupName_isSome_iff, substMapBias_keys]
      exact hall p hp)
    exact ⟨String.mk cs, by rw [hcs]⟩
  · rintro ⟨p, hp, hnp⟩
    cases hr : renderToks (substMap scen) ts with
    | ok cs =>
      have := lookups_of_renderToks_ok (substMap scen) ts cs hr p hp
      rw [lookupName_isSome_iff, substMap_keys] at this
      exact absurd this hnp
    | error e =>
      obtain ⟨q, hq1, hq2, hq3⟩ := renderToks_error_missing (substMap scen) ts e hr
      rw [lookupName_eq_none_iff, substMap_keys] at hq3
      exact ⟨q, hq2, hq3, by rw [hq1]⟩
  · rintro ⟨p, hp, hnp⟩
    cases hr : renderToks (substMapBias scen) ts with
    | ok cs =>
      have := lookups_of_renderToks_ok (substMapBias scen) ts cs hr p hp
      rw [lookupName_isSome_iff, substMapBias_keys] at this
      exact absurd this hnp
    | error e =>
      obtain ⟨q, hq1, hq2, hq3⟩ := renderToks_error_missing (substMapBias scen) ts e hr
      rw [lookupName_eq_none_iff, substMapBias_keys] at hq3
      exact ⟨q, hq2, hq3, by rw [hq1]⟩

/-- C9, witness: a template using the full `DELTA_RHO_PCM`/`RHO_BIAS_PCM`
placeholder set renders successfully against the bias variant's
parameters. -/
theorem template_variant_selection_witness :
    ∃ out,
      substitute
        "tf $TF a $T_RAMP_START b $T_RAMP_END c ${POWER_TOT} d $DELTA_RHO_PCM e $RHO_BIAS_PCM f $T_FUEL0 g $T_MOD0 h $T_SHELL0 i $T_COOL0"
        (substMapBias ⟨1/2, "up", "nominal", 300, "w"⟩) = .ok out :=
  (template_variant_selection _
      ["TF", "T_RAMP_START", "T_RAMP_END", "POWER_TOT", "DELTA_RHO_PCM", "RHO_BIAS_PCM",
       "T_FUEL0", "T_MOD0", "T_SHELL0", "T_COOL0"] _ (by decide)).2.1 (by decide)

theorem tf_of_eq_307 (s : Scenario) (h : s.t_ramp_s = RAMP_TIME_S) : tf_of s = 307 := by
  rw [tf_of, h]
  norm_num [PRE_RAMP_S, RAMP_TIME_S, POST_RAMP_S]

theorem t_ramp_end_eq_302 (s : Scenario) (h : s.t_ramp_s = RAMP_TIME_S) :
    t_ramp_end_of s = 302 := by
  rw [t_ramp_end_of, h]
  norm_num [PRE_RAMP_S, RAMP_TIME_S]

theorem delta_rho_pcm_up (s : Scenario) (h : s.t_ramp_s = RAMP_TIME_S)
    (hd : s.direction = "up") : delta_rho_pcm s = 1200 := by
  rw [delta_rho_pcm, delta_rho_of, hd, h, if_neg (by decide : ¬("up" : String) = "down")]
  norm_num [RHO_RATE_PCM_PER_MIN, RAMP_TIME_S]

theorem delta_rho_pcm_down (s : Scenario) (h : s.t_ramp_s = RAMP_TIME_S)
    (hd : s.direction = "down") : delta_rho_pcm s = -1200 := by
  rw [delta_rho_pcm, delta_rho_of, hd, h, if_pos rfl]
  norm_num [RHO_RATE_PCM_PER_MIN, RAMP_TIME_S]

theorem lookup_substMap_TF (s : Scenario) :
    lookupName (substMap s) "TF" = some (formatFixed6 (tf_of s)) := rfl

theorem lookup_substMap_DELTA_RHO (s : Scenario) :
    lookupName (substMap s) "DELTA_RHO" = some (formatFixed6 (delta_rho_pcm s)) := rfl

/-- C10: every generated scenario carries the one configured ramp duration
`RAMP_TIME_S = 300 s`, so its deck's timing and reactivity magnitude are
the same across the whole run: total time 307 s, ramp start 2 s, ramp end
302 s, and a reactivity delta of ±1200 pcm (magnitude 1200), the rendered
`TF` always being `"307.000000"` and `DELTA_RHO` either `"1200.000000"` or
`"-1200.000000"` according to direction alone. -/
theorem fixed_ramp_invariants :
    ∀ s ∈ generate_scenarios,
      s.t_ramp_s = RAMP_TIME_S ∧
      s.t_ramp_s = 300 ∧
      tf_of s = 307 ∧
      t_ramp_start = 2 ∧
      t_ramp_end_of s = 302 ∧
      |delta_rho_pcm s| = 1200 ∧
      (delta_rho_pcm s = 1200 ∨ delta_rho_pcm s = -1200) ∧
      lookupName (substMap s) "TF" = some "307.000000" ∧
      (lookupName (substMap s) "DELTA_RHO" = some "1200.000000" ∨
       lookupName (substMap s) "DELTA_RHO" = some "-1200.000000") := by
  intro s hs
  obtain ⟨b, hb, p, hp, h | h⟩ := mem_generate_scenarios hs
  · have hts : s.t_ramp_s = RAMP_TIME_S := by rw [h]
    have hdir : s.direction = "up" := by rw [h]
    refine ⟨hts, hts, tf_of_eq_307 s hts, rfl, t_ramp_end_eq_302 s hts, ?_, ?_, ?_, ?_⟩
    · rw [delta_rho_pcm_up s hts hdir]; norm_num
    · exact Or.inl (delta_rho_pcm_up s hts hdir)
    · rw [lookup_substMap_TF s, tf_of_eq_307 s hts, formatFixed6_307]
    · exact Or.inl (by
        rw [lookup_substMap_DELTA_RHO s, delta_rho_pcm_up s hts hdir, formatFixed6_1200])
  · have hts : s.t_ramp_s = RAMP_TIME_S := by rw [h]
    have hdir : s.direction = "down" := by rw [h]
    refine ⟨hts, hts, tf_of_eq_307 s hts, rfl, t_ramp_end_eq_302 s hts, ?_, ?_, ?_, ?_⟩
    · rw [delta_rho_pcm_down s hts hdir]; norm_num
    · exact Or.inr (delta_rho_pcm_down s hts hdir)
    · rw [lookup_substMap_TF s, tf_of_eq_307 s hts, formatFixed6_307]
    · exact Or.inr (by
        rw [lookup_substMap_DELTA_RHO s, delta_rho_pcm_down s hts hdir, formatFixed6_neg1200])

/-- C10, witness: the first generated scenario's total simulated time is
307 s. -/
theorem fixed_ramp_invariants_witness :
    tf_of (⟨0.2, "up", "low", 300, "init20-low-up"⟩ : Scenario) = 307 :=
  (fixed_ramp_invariants _
      (by rw [generate_scenarios_eval]; exact List.mem_cons_self _ _)).2.2.1

end CreateScenarios
